import Mathlib

/-!
A shallow embedding of the meteor-dodging game implemented in
src/src/main.rs (a Bevy application), together with theorems about its
systems.

Modelling conventions:
- f32 and f64 scalars are modelled as exact rationals; the only place the
  source computes a square root (normalising a meteor velocity) is
  modelled separately over the reals.
- Each Bevy system becomes a pure function on an explicit World value.
  Input resources that the engine supplies (key state, frame delta time,
  random draws) become explicit parameters.
- Events are modelled as pending-event counters on the World: a writer
  adds to the counter, a reader consumes the whole counter.
- Queries that use single() and would panic when no matching entity
  exists are modelled totally: the system leaves the World unchanged in
  that case.
-/

/-- The two-variant state enum GameState from main.rs. -/
inductive GameState where
  | InGame
  | Dead
  deriving DecidableEq

/-- The bevy ui Interaction enum read by retry_button_system. -/
inductive Interaction where
  | Pressed
  | Hovered
  | None
  deriving DecidableEq

/-- The schedules that main registers systems into. -/
inductive Schedule where
  | Startup
  | Update
  | FixedUpdate
  | OnEnterInGame
  | OnEnterDead
  | OnExitDead
  deriving DecidableEq

/-- Names of the systems declared in main.rs, plus the engine-provided
close_on_esc that main also registers. -/
inductive SystemName where
  | despawnOffscreen
  | movePlayer
  | applyVelocity
  | checkForCollisions
  | applyDamage
  | applyRotations
  | updateHealthBar
  | animateSprites
  | updateScoreboard
  | handleDeath
  | retryButtonSystem
  | closeOnEsc
  | maybeSpawnMeteor
  | increaseDifficulty
  | setupSys
  | initSys
  | onDeathEnter
  | onDeathExit
  deriving DecidableEq

/-- The system-set labels used by main.rs, with NoSet for systems added
to a schedule without a set. -/
inductive SysSet where
  | GamePlaySet
  | DeadScreenSet
  | NoSet
  deriving DecidableEq

/-- The registrations performed by main(): each add_systems call,
recorded as (schedule, system, set). -/
def appSystems : List (Schedule × SystemName × SysSet) :=
  [ (Schedule.Update, SystemName.despawnOffscreen, SysSet.GamePlaySet),
    (Schedule.Update, SystemName.movePlayer, SysSet.GamePlaySet),
    (Schedule.Update, SystemName.applyVelocity, SysSet.GamePlaySet),
    (Schedule.Update, SystemName.checkForCollisions, SysSet.GamePlaySet),
    (Schedule.Update, SystemName.applyDamage, SysSet.GamePlaySet),
    (Schedule.Update, SystemName.applyRotations, SysSet.GamePlaySet),
    (Schedule.Update, SystemName.updateHealthBar, SysSet.GamePlaySet),
    (Schedule.Update, SystemName.animateSprites, SysSet.GamePlaySet),
    (Schedule.Update, SystemName.updateScoreboard, SysSet.GamePlaySet),
    (Schedule.Update, SystemName.handleDeath, SysSet.GamePlaySet),
    (Schedule.Startup, SystemName.initSys, SysSet.NoSet),
    (Schedule.FixedUpdate, SystemName.maybeSpawnMeteor, SysSet.GamePlaySet),
    (Schedule.FixedUpdate, SystemName.increaseDifficulty, SysSet.GamePlaySet),
    (Schedule.Update, SystemName.retryButtonSystem, SysSet.DeadScreenSet),
    (Schedule.Update, SystemName.closeOnEsc, SysSet.NoSet),
    (Schedule.OnEnterInGame, SystemName.setupSys, SysSet.NoSet),
    (Schedule.OnEnterDead, SystemName.onDeathEnter, SysSet.NoSet),
    (Schedule.OnExitDead, SystemName.onDeathExit, SysSet.NoSet) ]

/-- The run_if state condition that main configure_sets attaches to each
set (GamePlaySet runs in InGame, DeadScreenSet runs in Dead). -/
def setRunIf : SysSet → Option GameState
  | SysSet.GamePlaySet => some GameState.InGame
  | SysSet.DeadScreenSet => some GameState.Dead
  | SysSet.NoSet => none

/-- The systems that main places in GamePlaySet, the gameplay update
functions. -/
def gamePlaySystems : List SystemName :=
  (appSystems.filter (fun r => decide (r.2.2 = SysSet.GamePlaySet))).map
    (fun r => r.2.1)

/-- INIT_DIFFICULTY from main.rs (0.05). -/
def INIT_DIFFICULTY : ℚ := 0.05

/-- STARTING_HEALTH from main.rs (5); a usize in the source, modelled as
an integer so that absence of underflow is expressible. -/
def STARTING_HEALTH : Int := 5

/-- DIFFICULTY_INCREMENT from main.rs (0.001). -/
def DIFFICULTY_INCREMENT : ℚ := 0.001

/-- PLAYER_SPEED from main.rs. -/
def PLAYER_SPEED : ℚ := 500

/-- METEOR_SPEED from main.rs. -/
def METEOR_SPEED : ℚ := 250

/-- The exact value of the f32 constant std::f32::consts::TAU used by
apply_rotations. -/
def TAU : ℚ := 13175771 / 2097152

/-- An rgb colour value. -/
structure Color where
  r : ℚ
  g : ℚ
  b : ℚ
  deriving DecidableEq

def BACKGROUND_COLOR : Color := ⟨0.9, 0.9, 0.9⟩

def NORMAL_BUTTON : Color := ⟨0.15, 0.15, 0.15⟩

def HOVERED_BUTTON : Color := ⟨0.25, 0.25, 0.25⟩

def PRESSED_BUTTON : Color := ⟨0.35, 0.75, 0.35⟩

def RED : Color := ⟨1, 0, 0⟩

def WHITE : Color := ⟨1, 1, 1⟩

def BLACK : Color := ⟨0, 0, 0⟩

/-- A repeating Bevy Timer: all timers created by this program use
TimerMode Repeating. justFinished records whether the timer completed
during the most recent tick; for a repeating timer Bevy finished() and
just_finished() agree. -/
structure Timer where
  duration : ℚ
  elapsed : ℚ
  justFinished : Bool
  deriving DecidableEq

/-- Timer tick: advance by the delta; on completion wrap the elapsed
time modulo the duration and raise the finished flag. -/
def Timer.tick (t : Timer) (d : ℚ) : Timer :=
  let e := t.elapsed + d
  if t.duration ≤ e then
    { duration := t.duration,
      elapsed := e - t.duration * (((e / t.duration).floor : Int) : ℚ),
      justFinished := true }
  else
    { duration := t.duration, elapsed := e, justFinished := false }

/-- Timer finished(); for a repeating timer this equals just_finished(). -/
def Timer.finished (t : Timer) : Bool := t.justFinished

/-- Timer from_seconds with TimerMode Repeating. -/
def Timer.fromSeconds (d : ℚ) : Timer :=
  { duration := d, elapsed := 0, justFinished := false }

/-- A bevy Transform restricted to what the game uses: translation,
scale, and the accumulated z rotation applied by rotate_z. -/
structure Transform where
  tx : ℚ
  ty : ℚ
  tz : ℚ
  sx : ℚ
  sy : ℚ
  sz : ℚ
  rotZ : ℚ
  deriving DecidableEq

/-- An entity together with the components this game attaches. A none
field means the entity does not carry that component; the marker
components (Player, Meteor, Button, ScoreboardUi, HealthBarUi) and the
engine-owned Window and Camera markers become flags. -/
structure Entity where
  id : Nat
  isPlayer : Bool := false
  isMeteor : Bool := false
  isWindow : Bool := false
  isCamera : Bool := false
  isButton : Bool := false
  isScoreboardUi : Bool := false
  healthBarIdx : Option Nat := none
  transform : Option Transform := none
  velocity : Option (ℚ × ℚ) := none
  collider : Option (ℚ × ℚ) := none
  health : Option Int := none
  rotationalMomentum : Option ℚ := none
  animTimer : Option (Timer × Nat × Nat) := none
  atlasIndex : Option Nat := none
  uiText : Option String := none
  interaction : Option Interaction := none
  interactionChanged : Bool := false
  bgColor : Option Color := none
  borderColor : Option Color := none
  parentId : Option Nat := none
  deriving DecidableEq

/-- A meteor type from the MeteorRes resource (texture handles are not
modelled). -/
structure MeteorType where
  dimensions : ℚ × ℚ
  scale : ℚ
  deriving DecidableEq

/-- The MeteorRes resource contents built by init: big then small. -/
def meteorRes : List MeteorType :=
  [ ⟨(192, 156), 0.5⟩, ⟨(108, 92), 0.5⟩ ]

/-- The world: entities, the window dimensions, the game state machine
(current state plus the pending NextState), the two event channels, and
the Scoreboard and Difficulty resources. -/
structure World where
  entities : List Entity
  nextId : Nat
  windowW : ℚ
  windowH : ℚ
  state : GameState
  nextState : Option GameState
  collisionEvents : Nat
  deathEvents : Nat
  score : Nat
  scoreTimer : Timer
  difficultyValue : ℚ
  difficultyTimer : Timer
  deriving DecidableEq

/-- bottom(w) from main.rs: height / -2. -/
def bottom (w : World) : ℚ := w.windowH / (-2)

/-- left(w) from main.rs: width / -2. -/
def left (w : World) : ℚ := w.windowW / (-2)

/-- right(w) from main.rs: width / 2. -/
def right (w : World) : ℚ := w.windowW / 2

/-- An axis-aligned bounding box, as bevy Aabb2d. -/
structure Aabb2d where
  minX : ℚ
  minY : ℚ
  maxX : ℚ
  maxY : ℚ
  deriving DecidableEq

/-- Aabb2d::new(center, half_size): min = center - half_size, max =
center + half_size. -/
def Aabb2d.new (center : ℚ × ℚ) (halfSize : ℚ × ℚ) : Aabb2d :=
  { minX := center.1 - halfSize.1,
    minY := center.2 - halfSize.2,
    maxX := center.1 + halfSize.1,
    maxY := center.2 + halfSize.2 }

/-- IntersectsVolume for Aabb2d: closed overlap on both axes. -/
def Aabb2d.intersects (a b : Aabb2d) : Bool :=
  decide (a.minX ≤ b.maxX) && decide (a.maxX ≥ b.minX) &&
    decide (a.minY ≤ b.maxY) && decide (a.maxY ≥ b.minY)

/-- One iteration of the apply_damage event loop on the player health:
under the guard health > 0 decrement by one and send a DeathEvent when
the result is zero; otherwise only log a warning. Returns (new health,
death events sent, warnings logged). -/
def apply_damage_step (h : Int) : Int × Nat × Nat :=
  if 0 < h then
    (h - 1, if h - 1 = 0 then 1 else 0, 0)
  else
    (h, 0, 1)

/-- The apply_damage loop over n pending CollisionEvents. -/
def apply_damage_loop : Nat → Int → Int × Nat × Nat
  | 0, h => (h, 0, 0)
  | n + 1, h =>
    let s := apply_damage_step h
    let r := apply_damage_loop n s.1
    (r.1, s.2.1 + r.2.1, s.2.2 + r.2.2)

/-- The player entity, if one exists (the source uses single() and
panics otherwise). -/
def findPlayer (w : World) : Option Entity :=
  w.entities.find? (fun e => e.isPlayer)

/-- The current player health, defaulting to 0 when there is no player
(a case in which the source system would panic). -/
def playerHealth (w : World) : Int :=
  match findPlayer w with
  | some e => e.health.getD 0
  | none => 0

/-- Overwrite the player health component. -/
def setPlayerHealth (es : List Entity) (h : Int) : List Entity :=
  es.map (fun e => if e.isPlayer then { e with health := some h } else e)

/-- The apply_damage system: read all pending CollisionEvents, run the
damage loop on the player health, and emit the resulting DeathEvents. -/
def apply_damage (w : World) : World :=
  { w with
    entities :=
      setPlayerHealth w.entities
        (apply_damage_loop w.collisionEvents (playerHealth w)).1,
    collisionEvents := 0,
    deathEvents :=
      w.deathEvents + (apply_damage_loop w.collisionEvents (playerHealth w)).2.1 }

/-- The handle_death system: for each pending DeathEvent set the next
state to Dead. -/
def handle_death (w : World) : World :=
  { w with
    nextState := if 0 < w.deathEvents then some GameState.Dead else w.nextState,
    deathEvents := 0 }

/-- The AABB that check_for_collisions builds for an entity: centred at
the translation with half extents scale * collider_size / 2
(componentwise). -/
def colliderAabb (c : ℚ × ℚ) (t : Transform) : Aabb2d :=
  Aabb2d.new (t.tx, t.ty) ((t.sx * c.1) / 2, (t.sy * c.2) / 2)

/-- Membership in the collider query of check_for_collisions: has a
Collider and a Transform and is not the player. -/
def inColliderQuery (e : Entity) : Bool :=
  !e.isPlayer && e.collider.isSome && e.transform.isSome

/-- Whether the AABB of this entity intersects the player bounding box. -/
def entityHits (pbb : Aabb2d) (e : Entity) : Bool :=
  match e.collider, e.transform with
  | some c, some t => (colliderAabb c t).intersects pbb
  | _, _ => false

/-- The for loop of check_for_collisions: scan the collider query and,
for each entity whose box intersects the player box, send one
CollisionEvent and record the entity for despawning. Returns (events
sent, ids despawned). -/
def check_loop (pbb : Aabb2d) : List Entity → Nat × List Nat
  | [] => (0, [])
  | e :: rest =>
    let r := check_loop pbb rest
    if inColliderQuery e && entityHits pbb e then (r.1 + 1, e.id :: r.2) else r

/-- The player bounding box, when a player with Collider and Transform
exists. -/
def playerBb (w : World) : Option Aabb2d :=
  match w.entities.find? (fun e => e.isPlayer && e.collider.isSome && e.transform.isSome) with
  | some p =>
    match p.collider, p.transform with
    | some c, some t => some (colliderAabb c t)
    | _, _ => none
  | none => none

/-- The check_for_collisions system: emit one CollisionEvent per
intersecting collider entity and despawn those entities. -/
def check_for_collisions (w : World) : World :=
  match playerBb w with
  | none => w
  | some pbb =>
    { w with
      entities := w.entities.filter (fun e => !(inColliderQuery e && entityHits pbb e)),
      collisionEvents := w.collisionEvents + (check_loop pbb w.entities).1 }

/-- Rust f32 clamp: returns the lower bound below it, the upper bound
above it, the value itself otherwise. -/
def clampR (x lo hi : ℚ) : ℚ :=
  if x < lo then lo else if hi < x then hi else x

/-- The new player x position computed by move_player: integrate the key
direction at PLAYER_SPEED and clamp to left(window) and right(window). -/
def movedPlayerX (x dir dt : ℚ) (w : World) : ℚ :=
  clampR (x + dir * PLAYER_SPEED * dt) (left w) (right w)

/-- The move_player system; leftKey and rightKey are the pressed states
of ArrowLeft and ArrowRight, dt is delta_seconds. -/
def move_player (leftKey rightKey : Bool) (dt : ℚ) (w : World) : World :=
  let dir : ℚ := (if leftKey then -1 else 0) + (if rightKey then 1 else 0)
  { w with
    entities := w.entities.map (fun e =>
      if e.isPlayer then
        match e.transform with
        | some t => { e with transform := some { t with tx := movedPlayerX t.tx dir dt w } }
        | none => e
      else e) }

/-- The apply_velocity system: integrate translation by velocity * dt. -/
def apply_velocity (dt : ℚ) (w : World) : World :=
  { w with
    entities := w.entities.map (fun e =>
      match e.transform, e.velocity with
      | some t, some v =>
        { e with transform := some { t with tx := t.tx + v.1 * dt, ty := t.ty + v.2 * dt } }
      | _, _ => e) }

/-- The apply_rotations system: rotate_z by momentum * TAU * dt. -/
def apply_rotations (dt : ℚ) (w : World) : World :=
  { w with
    entities := w.entities.map (fun e =>
      match e.transform, e.rotationalMomentum with
      | some t, some s =>
        { e with transform := some { t with rotZ := t.rotZ + s * TAU * dt } }
      | _, _ => e) }

/-- The offscreen test of despawn_offscreen. -/
def offscreen (w : World) (t : Transform) : Bool :=
  decide (t.ty < w.windowH / (-2)) || decide (w.windowH / 2 < t.ty) ||
    decide (t.tx < w.windowW / (-2)) || decide (w.windowW / 2 < t.tx)

/-- The despawn_offscreen system: despawn meteors outside the window. -/
def despawn_offscreen (w : World) : World :=
  { w with
    entities := w.entities.filter (fun e =>
      !(e.isMeteor && (match e.transform with
        | some t => offscreen w t
        | none => false))) }

/-- The update_health_bar system: despawn heart UI entities whose index
is at least the current player health. -/
def update_health_bar (w : World) : World :=
  { w with
    entities :=
      match w.entities.find? (fun e => e.isPlayer && e.health.isSome) with
      | some p =>
        w.entities.filter (fun e =>
          match e.healthBarIdx with
          | some i => decide ((i : Int) < p.health.getD 0)
          | none => true)
      | none => w.entities }

/-- The animate_sprites system: tick each AnimationTimer; each time one
finishes, advance the atlas index, wrapping from the upper frame back to
the reset frame. -/
def animate_sprites (dt : ℚ) (w : World) : World :=
  { w with
    entities := w.entities.map (fun e =>
      match e.animTimer, e.atlasIndex with
      | some (t, hi, lo), some i =>
        let t2 := t.tick dt
        { e with
          animTimer := some (t2, hi, lo),
          atlasIndex := some (if t2.finished then (if hi ≤ i then lo else i + 1) else i) }
      | _, _ => e) }

/-- The update_scoreboard system: tick the score timer, add one to the
score when it finishes, and write the score into the scoreboard text. -/
def update_scoreboard (dt : ℚ) (w : World) : World :=
  let t := w.scoreTimer.tick dt
  let s := if t.finished then w.score + 1 else w.score
  { w with
    scoreTimer := t,
    score := s,
    entities := w.entities.map (fun e =>
      if e.isScoreboardUi then { e with uiText := some (toString s) } else e) }

/-- The background colour retry_button_system writes for an interaction. -/
def retryBgColor (i : Interaction) : Color :=
  match i with
  | Interaction.Pressed => PRESSED_BUTTON
  | Interaction.Hovered => HOVERED_BUTTON
  | Interaction.None => NORMAL_BUTTON

/-- The border colour retry_button_system writes for an interaction. -/
def retryBorderColor (i : Interaction) : Color :=
  match i with
  | Interaction.Pressed => RED
  | Interaction.Hovered => WHITE
  | Interaction.None => BLACK

/-- A button entity whose interaction changed to Pressed this frame. -/
def buttonPressed (e : Entity) : Bool :=
  e.isButton && e.interactionChanged && decide (e.interaction = some Interaction.Pressed)

/-- The retry_button_system: over buttons whose Interaction changed,
recolour them, and on a press set the next state to InGame. -/
def retry_button_system (w : World) : World :=
  { w with
    entities := w.entities.map (fun e =>
      if e.isButton && e.interactionChanged then
        match e.interaction with
        | some i =>
          { e with bgColor := some (retryBgColor i), borderColor := some (retryBorderColor i) }
        | none => e
      else e),
    nextState :=
      if w.entities.any buttonPressed then some GameState.InGame else w.nextState }

/-- The meteor entity spawned by maybe_spawn_meteor, given the sampled
meteor type, the computed velocity, the sampled x position, and the
sampled rotational momentum. It appears at the top edge of the window:
translation y = height / 2, z = 1, scaled uniformly by the meteor type
scale. -/
def meteorEntity (w : World) (mt : MeteorType) (vel : ℚ × ℚ) (xpos : Int) (rotM : ℚ) : Entity :=
  { id := w.nextId,
    isMeteor := true,
    collider := some mt.dimensions,
    velocity := some vel,
    transform := some
      { tx := (xpos : ℚ), ty := w.windowH / 2, tz := 1,
        sx := mt.scale, sy := mt.scale, sz := 1, rotZ := 0 },
    rotationalMomentum := some rotM }

/-- The maybe_spawn_meteor system. The random draws are passed in:
mt is the sampled meteor type, chance is the outcome of
rng.chance(difficulty clamped to [0, 100]), vel is the velocity built
from the normalised random direction (see meteor_velocity for the exact
construction over the reals), xpos the x position sampled in
[left(w), right(w)), rotM the rotational momentum. -/
def maybe_spawn_meteor (mt : MeteorType) (chance : Bool) (vel : ℚ × ℚ) (xpos : Int) (rotM : ℚ) (w : World) : World :=
  if chance then
    { w with
      entities := w.entities ++ [meteorEntity w mt vel xpos rotM],
      nextId := w.nextId + 1 }
  else
    w

/-- METEOR_SPEED as a real number, for the velocity construction. -/
noncomputable def METEOR_SPEED_R : ℝ := (METEOR_SPEED : ℚ)

/-- The meteor velocity construction of maybe_spawn_meteor over the
reals: a is the f32_normalized draw (in [-1, 1]), b the f32 draw (in
[0, 1)); the vector (a / 15, -b) is normalised and scaled by
METEOR_SPEED. -/
noncomputable def meteor_velocity (a b : ℝ) : ℝ × ℝ :=
  let x := a / 15
  let y := -b
  let len := Real.sqrt (x ^ 2 + y ^ 2)
  (x / len * METEOR_SPEED_R, y / len * METEOR_SPEED_R)

/-- The increase_difficulty system: tick the repeating difficulty timer
and add DIFFICULTY_INCREMENT each time it finishes. -/
def increase_difficulty (dt : ℚ) (w : World) : World :=
  let t := w.difficultyTimer.tick dt
  { w with
    difficultyTimer := t,
    difficultyValue :=
      if t.finished then w.difficultyValue + DIFFICULTY_INCREMENT else w.difficultyValue }

/-- Iterated increase_difficulty over a list of frame deltas, one
FixedUpdate run. -/
def difficulty_run (w : World) : List ℚ → World
  | [] => w
  | dt :: rest => difficulty_run (increase_difficulty dt w) rest

/-- The Startup system init from main.rs: spawn the camera and insert
the Difficulty and Scoreboard resources with 0.25 second repeating
timers. -/
def initStartup (w : World) : World :=
  { w with
    entities := w.entities ++ [{ id := w.nextId, isCamera := true }],
    nextId := w.nextId + 1,
    difficultyValue := INIT_DIFFICULTY,
    difficultyTimer := Timer.fromSeconds 0.25,
    score := 0,
    scoreTimer := Timer.fromSeconds 0.25 }

/-- The player entity spawned by setup: at x = 0, just above the bottom
edge, scaled 0.2, with a 0.1 second animation timer over frames 0..4, a
150 x 250 collider, and STARTING_HEALTH health. -/
def playerEntity (i : Nat) (w : World) : Entity :=
  { id := i,
    isPlayer := true,
    transform := some
      { tx := 0, ty := bottom w + 30, tz := 0, sx := 0.2, sy := 0.2, sz := 0, rotZ := 0 },
    animTimer := some (Timer.fromSeconds 0.1, 4, 0),
    collider := some (150, 250),
    health := some STARTING_HEALTH,
    atlasIndex := some 1 }

/-- The scoreboard text entity spawned by setup. -/
def scoreboardEntity (i : Nat) : Entity :=
  { id := i, isScoreboardUi := true, uiText := some "" }

/-- A heart entity of the health bar, carrying its index. -/
def heartEntity (i idx : Nat) : Entity :=
  { id := i, healthBarIdx := some idx }

/-- The OnEnter(InGame) system setup: reset difficulty to
INIT_DIFFICULTY and the score to 0, then spawn the player, the
scoreboard text, and one heart per starting health point. -/
def setup (w : World) : World :=
  { w with
    difficultyValue := INIT_DIFFICULTY,
    score := 0,
    entities :=
      w.entities ++ [playerEntity w.nextId w, scoreboardEntity (w.nextId + 1)] ++
        (List.range STARTING_HEALTH.toNat).map (fun i => heartEntity (w.nextId + 2 + i) i),
    nextId := w.nextId + 2 + STARTING_HEALTH.toNat }

/-- The entities kept by the death screen wipe: only the Window and the
Camera. -/
def keepOnDeath (e : Entity) : Bool := e.isWindow || e.isCamera

/-- The full-screen root node of the retry screen. -/
def deathRootEntity (i : Nat) : Entity := { id := i }

/-- The retry-screen text entity showing the final score. -/
def deathScoreText (i score : Nat) : Entity :=
  { id := i + 1, parentId := some i,
    uiText := some ("YOUR SCORE: " ++ toString score) }

/-- The Retry button entity, with the default Interaction and the
normal colours the source gives it. -/
def deathRetryButton (i : Nat) : Entity :=
  { id := i + 2, parentId := some i, isButton := true,
    interaction := some Interaction.None, bgColor := some NORMAL_BUTTON,
    borderColor := some BLACK }

/-- The text child of the Retry button. -/
def deathRetryText (i : Nat) : Entity :=
  { id := i + 3, parentId := some (i + 2), uiText := some "Retry" }

/-- The retry screen spawned by on_death_enter: a full-screen node, a
text child showing the final score, a Retry button, and the button text. -/
def deathScreenEntities (i : Nat) (score : Nat) : List Entity :=
  [deathRootEntity i, deathScoreText i score, deathRetryButton i,
    deathRetryText i]

/-- The OnEnter(Dead) system on_death_enter: despawn everything except
the Window and Camera, then spawn the retry screen showing the score. -/
def on_death_enter (w : World) : World :=
  { w with
    entities := w.entities.filter keepOnDeath ++ deathScreenEntities w.nextId w.score,
    nextId := w.nextId + 4 }

/-- The OnExit(Dead) system on_death_exit: despawn everything except the
Window and Camera. -/
def on_death_exit (w : World) : World :=
  { w with entities := w.entities.filter keepOnDeath }

/-- A minimal world used for concrete evaluations. -/
def baseWorld : World :=
  { entities := [], nextId := 0, windowW := 800, windowH := 600,
    state := GameState.InGame, nextState := none, collisionEvents := 0,
    deathEvents := 0, score := 0, scoreTimer := Timer.fromSeconds 0.25,
    difficultyValue := INIT_DIFFICULTY, difficultyTimer := Timer.fromSeconds 0.25 }

/-- A world with one pending DeathEvent. -/
def w1 : World := { baseWorld with deathEvents := 1 }

/-- A concrete player at the origin with a 10 x 10 collider at scale 1. -/
def playerEnt2 : Entity :=
  { id := 0, isPlayer := true, collider := some (10, 10),
    transform := some ⟨0, 0, 0, 1, 1, 1, 0⟩ }

/-- A meteor whose box overlaps the player box. -/
def hitMeteor : Entity :=
  { id := 1, isMeteor := true, collider := some (4, 4),
    transform := some ⟨3, 3, 1, 1, 1, 1, 0⟩ }

/-- A meteor far away from the player. -/
def farMeteor : Entity :=
  { id := 2, isMeteor := true, collider := some (4, 4),
    transform := some ⟨100, 100, 1, 1, 1, 1, 0⟩ }

/-- A world with the player, one colliding meteor and one distant one. -/
def w2 : World :=
  { baseWorld with entities := [playerEnt2, hitMeteor, farMeteor], nextId := 3 }

/-- The player bounding box of w2. -/
def pbb2 : Aabb2d := colliderAabb (10, 10) ⟨0, 0, 0, 1, 1, 1, 0⟩

/-- A retry button that was just pressed. -/
def pressedButtonEnt : Entity :=
  { id := 0, isButton := true, interactionChanged := true,
    interaction := some Interaction.Pressed }

/-- A dead-screen world with a pressed retry button. -/
def w3 : World :=
  { baseWorld with
    entities := [pressedButtonEnt],
    nextId := 1,
    state := GameState.Dead }

def wdWindow : Entity := { id := 0, isWindow := true }

def wdCamera : Entity := { id := 1, isCamera := true }

def wdMeteor : Entity := { id := 2, isMeteor := true }

/-- A world about to enter the Dead state with score 7. -/
def wd : World :=
  { baseWorld with
    entities := [wdWindow, wdCamera, wdMeteor],
    nextId := 3,
    score := 7 }

/-- A player far outside a 100-wide window. -/
def w4player : Entity :=
  { id := 0, isPlayer := true, transform := some ⟨999, -20, 0, 1, 1, 1, 0⟩ }

/-- A world with a 100 x 100 window and the out-of-range player. -/
def w4 : World :=
  { baseWorld with
    entities := [w4player],
    nextId := 1,
    windowW := 100,
    windowH := 100 }

/-- The w4 player after move_player clamps it to the right edge. -/
def w4playerMoved : Entity :=
  { w4player with transform := some ⟨50, -20, 0, 1, 1, 1, 0⟩ }

/-- A damage step keeps a nonnegative health nonnegative. -/
theorem apply_damage_step_nonneg (h : Int) (hh : 0 ≤ h) :
    0 ≤ (apply_damage_step h).1 := by
  unfold apply_damage_step
  split_ifs with hp hz <;> dsimp only <;> omega

/-- The damage loop keeps a nonnegative health nonnegative. -/
theorem apply_damage_loop_nonneg (n : Nat) (h : Int) (hh : 0 ≤ h) :
    0 ≤ (apply_damage_loop n h).1 := by
  induction n generalizing h with
  | zero => simpa [apply_damage_loop] using hh
  | succ n ih =>
    simp only [apply_damage_loop]
    exact ih _ (apply_damage_step_nonneg h hh)

/-- At zero health the damage loop changes nothing and logs one warning
per event. -/
theorem apply_damage_loop_zero (n : Nat) :
    apply_damage_loop n 0 = (0, 0, n) := by
  induction n with
  | zero => rfl
  | succ n ih =>
    simp [apply_damage_loop, apply_damage_step, ih]
    omega

/-- Claim C1: while the player health is positive, each CollisionEvent
processed by apply_damage decreases the health by exactly one, a
DeathEvent is emitted exactly when the health reaches zero, and
handle_death moves the next state to Dead on a pending DeathEvent. -/
theorem claim_C1 (h : Int) (hpos : 0 < h) :
    (apply_damage_step h).1 = h - 1 ∧
    ((apply_damage_step h).2.1 = 1 ↔ h - 1 = 0) ∧
    ((apply_damage_step h).2.1 = 0 ↔ ¬h - 1 = 0) ∧
    (apply_damage_step h).2.2 = 0 ∧
    (∀ w : World, 0 < w.deathEvents →
      (handle_death w).nextState = some GameState.Dead) := by
  refine ⟨?_, ?_, ?_, ?_, ?_⟩
  · simp [apply_damage_step, hpos]
  · simp only [apply_damage_step, if_pos hpos]
    by_cases hz : h - 1 = 0 <;> simp [hz]
  · simp only [apply_damage_step, if_pos hpos]
    by_cases hz : h - 1 = 0 <;> simp [hz]
  · simp [apply_damage_step, hpos]
  · intro w hw
    simp [handle_death, hw]

/-- Witness for claim C1 at health 1 and one pending DeathEvent. -/
theorem claim_C1_witness :
    (0 : Int) < 1 ∧ (apply_damage_step 1).1 = 0 ∧
      (apply_damage_step 1).2.1 = 1 ∧
      (handle_death w1).nextState = some GameState.Dead := by
  have h := claim_C1 1 (by decide)
  refine ⟨by decide, by simpa using h.1, ?_, h.2.2.2.2 w1 (by decide)⟩
  exact h.2.1.mpr (by decide)

/-- Claim C9: apply_damage never drives the unsigned health below zero:
the decrement runs only under the guard health > 0, and a CollisionEvent
arriving at zero health leaves the health unchanged, logging a warning. -/
theorem claim_C9 (n : Nat) (h : Int) (hh : 0 ≤ h) :
    0 ≤ (apply_damage_loop n h).1 ∧
    apply_damage_step 0 = (0, 0, 1) ∧
    (h = 0 → apply_damage_loop n h = (0, 0, n)) := by
  refine ⟨apply_damage_loop_nonneg n h hh, by decide, ?_⟩
  intro h0
  rw [h0]
  exact apply_damage_loop_zero n

/-- Witness for claim C9 with three events arriving at zero health. -/
theorem claim_C9_witness :
    (0 : Int) ≤ 0 ∧ 0 ≤ (apply_damage_loop 3 0).1 ∧
      apply_damage_loop 3 0 = (0, 0, 3) := by
  have h := claim_C9 3 0 (by decide)
  exact ⟨by decide, h.1, h.2.2 rfl⟩

/-- The collision loop sends one event per intersecting query entity and
collects exactly the intersecting ids, in order. -/
theorem check_loop_eq (pbb : Aabb2d) (es : List Entity) :
    check_loop pbb es =
      ((es.filter (fun e => inColliderQuery e && entityHits pbb e)).length,
       (es.filter (fun e => inColliderQuery e && entityHits pbb e)).map Entity.id) := by
  induction es with
  | nil => rfl
  | cons e rest ih =>
    simp only [check_loop, List.filter_cons]
    by_cases hc : (inColliderQuery e && entityHits pbb e) = true
    · simp [hc, ih]
    · simp [hc, ih]

/-- Claim C2: check_for_collisions scans the non-player collider
entities, testing AABBs centred at each translation with half extents
scale * collider_size / 2; each intersecting entity contributes exactly
one CollisionEvent and is despawned, and a non-intersecting entity
contributes nothing. -/
theorem claim_C2 (w : World) (pbb : Aabb2d) (hp : playerBb w = some pbb) :
    (check_for_collisions w).collisionEvents =
      w.collisionEvents +
        (w.entities.filter (fun e => inColliderQuery e && entityHits pbb e)).length ∧
    (check_for_collisions w).entities =
      w.entities.filter (fun e => !(inColliderQuery e && entityHits pbb e)) ∧
    check_loop pbb w.entities =
      ((w.entities.filter (fun e => inColliderQuery e && entityHits pbb e)).length,
       (w.entities.filter (fun e => inColliderQuery e && entityHits pbb e)).map Entity.id) := by
  refine ⟨?_, ?_, check_loop_eq pbb w.entities⟩
  · unfold check_for_collisions
    rw [hp]
    simp [check_loop_eq]
  · unfold check_for_collisions
    rw [hp]

/-- Witness for claim C2 on a world with one colliding and one distant
meteor. -/
theorem claim_C2_witness :
    playerBb w2 = some pbb2 ∧
    (check_for_collisions w2).collisionEvents = 1 ∧
    (check_for_collisions w2).entities = [playerEnt2, farMeteor] ∧
    check_loop pbb2 w2.entities = (1, [1]) := by
  have hpb : playerBb w2 = some pbb2 := by
    norm_num [playerBb, w2, baseWorld, playerEnt2, hitMeteor, farMeteor,
      colliderAabb, Aabb2d.new, pbb2]
  have h := claim_C2 w2 pbb2 hpb
  refine ⟨hpb, ?_, ?_, ?_⟩
  · rw [h.1]
    norm_num [w2, baseWorld, playerEnt2, hitMeteor, farMeteor, inColliderQuery,
      entityHits, colliderAabb, Aabb2d.new, Aabb2d.intersects, pbb2]
  · rw [h.2.1]
    norm_num [w2, baseWorld, playerEnt2, hitMeteor, farMeteor, inColliderQuery,
      entityHits, colliderAabb, Aabb2d.new, Aabb2d.intersects, pbb2]
  · rw [h.2.2]
    norm_num [w2, baseWorld, playerEnt2, hitMeteor, farMeteor, inColliderQuery,
      entityHits, colliderAabb, Aabb2d.new, Aabb2d.intersects, pbb2]

/-- Claim C3: the game has exactly the two states InGame and Dead; the
pending next state is written only by handle_death (to Dead, on a
DeathEvent) and by retry_button_system (to InGame, on a button press);
every other system of the program leaves the next state untouched; and
the two writers are gated so that handle_death runs in InGame and
retry_button_system runs in Dead. -/
theorem claim_C3 :
    (∀ g : GameState, g = GameState.InGame ∨ g = GameState.Dead) ∧
    (∀ w : World, (handle_death w).nextState =
      if 0 < w.deathEvents then some GameState.Dead else w.nextState) ∧
    (∀ w : World, (retry_button_system w).nextState =
      if w.entities.any buttonPressed then some GameState.InGame else w.nextState) ∧
    (∀ w : World, (despawn_offscreen w).nextState = w.nextState) ∧
    (∀ (lk rk : Bool) (dt : ℚ) (w : World),
      (move_player lk rk dt w).nextState = w.nextState) ∧
    (∀ (dt : ℚ) (w : World), (apply_velocity dt w).nextState = w.nextState) ∧
    (∀ w : World, (check_for_collisions w).nextState = w.nextState) ∧
    (∀ w : World, (apply_damage w).nextState = w.nextState) ∧
    (∀ (dt : ℚ) (w : World), (apply_rotations dt w).nextState = w.nextState) ∧
    (∀ w : World, (update_health_bar w).nextState = w.nextState) ∧
    (∀ (dt : ℚ) (w : World), (animate_sprites dt w).nextState = w.nextState) ∧
    (∀ (dt : ℚ) (w : World), (update_scoreboard dt w).nextState = w.nextState) ∧
    (∀ (mt : MeteorType) (c : Bool) (v : ℚ × ℚ) (x : Int) (r : ℚ) (w : World),
      (maybe_spawn_meteor mt c v x r w).nextState = w.nextState) ∧
    (∀ (dt : ℚ) (w : World), (increase_difficulty dt w).nextState = w.nextState) ∧
    (∀ w : World, (initStartup w).nextState = w.nextState) ∧
    (∀ w : World, (setup w).nextState = w.nextState) ∧
    (∀ w : World, (on_death_enter w).nextState = w.nextState) ∧
    (∀ w : World, (on_death_exit w).nextState = w.nextState) ∧
    (Schedule.Update, SystemName.handleDeath, SysSet.GamePlaySet) ∈ appSystems ∧
    setRunIf SysSet.GamePlaySet = some GameState.InGame ∧
    (Schedule.Update, SystemName.retryButtonSystem, SysSet.DeadScreenSet) ∈ appSystems ∧
    setRunIf SysSet.DeadScreenSet = some GameState.Dead := by
  refine ⟨?_, ?_, ?_, ?_, ?_, ?_, ?_, ?_, ?_, ?_, ?_, ?_, ?_, ?_, ?_, ?_,
    ?_, ?_, ?_, ?_, ?_, ?_⟩
  · intro g
    cases g
    · exact Or.inl rfl
    · exact Or.inr rfl
  · intro w; rfl
  · intro w; rfl
  · intro w; rfl
  · intro lk rk dt w; rfl
  · intro dt w; rfl
  · intro w
    unfold check_for_collisions
    cases playerBb w <;> rfl
  · intro w; rfl
  · intro dt w; rfl
  · intro w; rfl
  · intro dt w; rfl
  · intro dt w; rfl
  · intro mt c v x r w
    unfold maybe_spawn_meteor
    cases c <;> rfl
  · intro dt w; rfl
  · intro w; rfl
  · intro w; rfl
  · intro w; rfl
  · intro w; rfl
  · decide
  · rfl
  · decide
  · rfl

/-- One increase_difficulty step never decreases the difficulty. -/
theorem increase_difficulty_mono (dt : ℚ) (w : World) :
    w.difficultyValue ≤ (increase_difficulty dt w).difficultyValue := by
  unfold increase_difficulty
  dsimp only
  split_ifs
  · norm_num [DIFFICULTY_INCREMENT]
  · exact le_refl _

/-- Difficulty is monotone along any run of FixedUpdate ticks. -/
theorem difficulty_run_mono (dts : List ℚ) (w : World) :
    w.difficultyValue ≤ (difficulty_run w dts).difficultyValue := by
  induction dts generalizing w with
  | nil => exact le_refl _
  | cons dt rest ih =>
    exact le_trans (increase_difficulty_mono dt w) (ih (increase_difficulty dt w))

/-- Claim C5: increase_difficulty adds exactly DIFFICULTY_INCREMENT
(0.001) to the difficulty each time its repeating quarter-second timer
finishes and otherwise leaves it unchanged, so along a run the
difficulty never decreases. -/
theorem claim_C5 :
    (∀ (dt : ℚ) (w : World), (increase_difficulty dt w).difficultyValue =
      if (w.difficultyTimer.tick dt).finished then
        w.difficultyValue + DIFFICULTY_INCREMENT
      else w.difficultyValue) ∧
    (∀ (dt : ℚ) (w : World),
      (increase_difficulty dt w).difficultyTimer = w.difficultyTimer.tick dt) ∧
    DIFFICULTY_INCREMENT = 1 / 1000 ∧
    (∀ w : World, (initStartup w).difficultyTimer.duration = 1 / 4) ∧
    (∀ (dt : ℚ) (w : World),
      w.difficultyValue ≤ (increase_difficulty dt w).difficultyValue) ∧
    (∀ (dts : List ℚ) (w : World),
      w.difficultyValue ≤ (difficulty_run w dts).difficultyValue) := by
  refine ⟨?_, ?_, ?_, ?_, increase_difficulty_mono, difficulty_run_mono⟩
  · intro dt w; rfl
  · intro dt w; rfl
  · norm_num [DIFFICULTY_INCREMENT]
  · intro w
    norm_num [initStartup, Timer.fromSeconds]

/-- Every retry-screen entity gets a fresh id at or above the spawn
cursor. -/
theorem deathScreen_id_ge (i s : Nat) :
    ∀ d ∈ deathScreenEntities i s, i ≤ d.id := by
  intro d hd
  simp only [deathScreenEntities, List.mem_cons, List.not_mem_nil, or_false] at hd
  rcases hd with h | h | h | h <;> subst h <;>
    simp [deathRootEntity, deathScoreText, deathRetryButton, deathRetryText]

/-- Claim C4: on entering Dead, every entity other than the Window and
Camera is despawned while Window and Camera survive; the spawned retry
screen shows the final score from the Scoreboard resource and carries a
Retry button; and pressing a button makes retry_button_system set the
next state to InGame. -/
theorem claim_C4 (w : World) (hids : ∀ e ∈ w.entities, e.id < w.nextId) :
    (∀ e ∈ w.entities, keepOnDeath e = false → e ∉ (on_death_enter w).entities) ∧
    (∀ e ∈ w.entities, keepOnDeath e = true → e ∈ (on_death_enter w).entities) ∧
    (∃ e ∈ (on_death_enter w).entities,
      e.uiText = some ("YOUR SCORE: " ++ toString w.score)) ∧
    (∃ e ∈ (on_death_enter w).entities, e.isButton = true) ∧
    (∀ w2 : World, w2.entities.any buttonPressed = true →
      (retry_button_system w2).nextState = some GameState.InGame) := by
  refine ⟨?_, ?_, ?_, ?_, ?_⟩
  · intro e he hk hmem
    simp only [on_death_enter] at hmem
    rcases List.mem_append.mp hmem with hm | hm
    · have := (List.mem_filter.mp hm).2
      rw [hk] at this
      exact Bool.false_ne_true this
    · have hge := deathScreen_id_ge w.nextId w.score e hm
      have := hids e he
      omega
  · intro e he hk
    exact List.mem_append_left _ (List.mem_filter.mpr ⟨he, hk⟩)
  · exact ⟨deathScoreText w.nextId w.score,
      List.mem_append_right _ (by simp [deathScreenEntities]), rfl⟩
  · exact ⟨deathRetryButton w.nextId,
      List.mem_append_right _ (by simp [deathScreenEntities]), rfl⟩
  · intro w2 hp
    simp [retry_button_system, hp]

/-- Witness for claim C4 on a world holding a window, a camera and a
meteor, with score 7, plus a pressed retry button world. -/
theorem claim_C4_witness :
    (wdMeteor ∈ wd.entities ∧ keepOnDeath wdMeteor = false) ∧
    wdMeteor ∉ (on_death_enter wd).entities ∧
    wdWindow ∈ (on_death_enter wd).entities ∧
    (∃ e ∈ (on_death_enter wd).entities,
      e.uiText = some ("YOUR SCORE: " ++ toString wd.score)) ∧
    (retry_button_system w3).nextState = some GameState.InGame := by
  have h := claim_C4 wd (by decide)
  exact ⟨⟨by decide, by decide⟩, h.1 wdMeteor (by decide) (by decide),
    h.2.1 wdWindow (by decide) (by decide), h.2.2.1,
    h.2.2.2.2 w3 (by decide)⟩

/-- The interval bounds of the clamp: within [lo, hi] whenever the
interval is nonempty. -/
theorem clampR_mem (x lo hi : ℚ) (h : lo ≤ hi) :
    lo ≤ clampR x lo hi ∧ clampR x lo hi ≤ hi := by
  unfold clampR
  split_ifs with h1 h2 <;> constructor <;> linarith

/-- Claim C8: after move_player runs, the player x translation lies in
[-width / 2, width / 2], for any key input and delta time, because the
integrated position is clamped to left(window) and right(window). -/
theorem claim_C8 (lk rk : Bool) (dt : ℚ) (w : World) (hw : 0 ≤ w.windowW)
    (e : Entity) (he : e ∈ (move_player lk rk dt w).entities)
    (hp : e.isPlayer = true) (t : Transform) (ht : e.transform = some t) :
    left w ≤ t.tx ∧ t.tx ≤ right w := by
  have hlr : left w ≤ right w := by
    unfold left right
    linarith
  simp only [move_player] at he
  rcases List.mem_map.mp he with ⟨a, ha, rfl⟩
  by_cases hap : a.isPlayer = true
  · rcases hat : a.transform with _ | t0
    · simp only [if_pos hap, hat] at ht
      simp at ht
    · simp only [if_pos hap, hat, Option.some.injEq] at ht
      subst ht
      exact clampR_mem _ _ _ hlr
  · rw [if_neg hap] at hp
    exact absurd hp hap

/-- Witness for claim C8: a player at x = 999 in a 100-wide window ends
the frame clamped to the right edge. -/
theorem claim_C8_witness :
    (0 : ℚ) ≤ w4.windowW ∧
    w4playerMoved ∈ (move_player false false 1 w4).entities ∧
    (left w4 ≤ (50 : ℚ) ∧ (50 : ℚ) ≤ right w4) := by
  have hmem : w4playerMoved ∈ (move_player false false 1 w4).entities := by
    norm_num [move_player, w4, baseWorld, w4player, w4playerMoved,
      movedPlayerX, clampR, left, right]
  refine ⟨by norm_num [w4, baseWorld], hmem, ?_⟩
  exact claim_C8 false false 1 w4 (by norm_num [w4, baseWorld]) w4playerMoved
    hmem rfl ⟨50, -20, 0, 1, 1, 1, 0⟩ rfl

/-- Claim C6: a spawned meteor is falling: its velocity, built by
normalising (f32_normalized / 15, -f32) and scaling by METEOR_SPEED, has
magnitude METEOR_SPEED and non-positive vertical component, and the
meteor is spawned at the top edge of the window (translation y =
height / 2). -/
theorem claim_C6 (a b : ℝ) (mt : MeteorType) (vel : ℚ × ℚ) (xpos : Int)
    (rotM : ℚ) (w : World) (ha1 : -1 ≤ a) (ha2 : a ≤ 1) (hb1 : 0 ≤ b)
    (hb2 : b < 1) (hnz : a ≠ 0 ∨ b ≠ 0) :
    Real.sqrt ((meteor_velocity a b).1 ^ 2 + (meteor_velocity a b).2 ^ 2) =
      METEOR_SPEED_R ∧
    (meteor_velocity a b).2 ≤ 0 ∧
    (maybe_spawn_meteor mt true vel xpos rotM w).entities =
      w.entities ++ [meteorEntity w mt vel xpos rotM] ∧
    ((meteorEntity w mt vel xpos rotM).transform.map Transform.ty) =
      some (w.windowH / 2) := by
  have hM0 : (0 : ℝ) < METEOR_SPEED_R := by
    norm_num [METEOR_SPEED_R, METEOR_SPEED]
  have hs : 0 < (a / 15) ^ 2 + (-b) ^ 2 := by
    rcases hnz with h | h
    · have hx0 : a / 15 ≠ 0 := div_ne_zero h (by norm_num)
      have h2 := pow_two_pos_of_ne_zero hx0
      nlinarith [sq_nonneg (-b)]
    · have hy0 : (-b : ℝ) ≠ 0 := neg_ne_zero.mpr h
      have h2 := pow_two_pos_of_ne_zero hy0
      nlinarith [sq_nonneg (a / 15)]
  have hlenpos : 0 < Real.sqrt ((a / 15) ^ 2 + (-b) ^ 2) := Real.sqrt_pos.mpr hs
  have hlen2 : Real.sqrt ((a / 15) ^ 2 + (-b) ^ 2) ^ 2 = (a / 15) ^ 2 + (-b) ^ 2 :=
    Real.sq_sqrt hs.le
  have h1 : (meteor_velocity a b).1 =
      a / 15 / Real.sqrt ((a / 15) ^ 2 + (-b) ^ 2) * METEOR_SPEED_R := rfl
  have h2v : (meteor_velocity a b).2 =
      -b / Real.sqrt ((a / 15) ^ 2 + (-b) ^ 2) * METEOR_SPEED_R := rfl
  refine ⟨?_, ?_, ?_, rfl⟩
  · have expand : (a / 15 / Real.sqrt ((a / 15) ^ 2 + (-b) ^ 2) * METEOR_SPEED_R) ^ 2 +
        (-b / Real.sqrt ((a / 15) ^ 2 + (-b) ^ 2) * METEOR_SPEED_R) ^ 2 =
        ((a / 15) ^ 2 + (-b) ^ 2) / Real.sqrt ((a / 15) ^ 2 + (-b) ^ 2) ^ 2 *
          METEOR_SPEED_R ^ 2 := by
      ring
    have key : (meteor_velocity a b).1 ^ 2 + (meteor_velocity a b).2 ^ 2 =
        METEOR_SPEED_R ^ 2 := by
      rw [h1, h2v, expand, hlen2, div_self (ne_of_gt hs), one_mul]
    rw [key]
    exact Real.sqrt_sq hM0.le
  · rw [h2v]
    have hdiv : -b / Real.sqrt ((a / 15) ^ 2 + (-b) ^ 2) ≤ 0 := by
      apply div_nonpos_iff.mpr
      right
      exact ⟨neg_nonpos.mpr hb1, (Real.sqrt_nonneg _)⟩
    exact mul_nonpos_of_nonpos_of_nonneg hdiv hM0.le
  · unfold maybe_spawn_meteor
    rfl

/-- Witness for claim C6 at draws a = 0, b = 1/2 and a small meteor. -/
theorem claim_C6_witness :
    Real.sqrt ((meteor_velocity 0 (1 / 2)).1 ^ 2 + (meteor_velocity 0 (1 / 2)).2 ^ 2) =
      METEOR_SPEED_R ∧
    (meteor_velocity 0 (1 / 2)).2 ≤ 0 ∧
    ((meteorEntity baseWorld ⟨(108, 92), 0.5⟩ (0, -250) 0 0).transform.map
      Transform.ty) = some (baseWorld.windowH / 2) := by
  have h := claim_C6 0 (1 / 2) ⟨(108, 92), 0.5⟩ (0, -250) 0 0 baseWorld
    (by norm_num) (by norm_num) (by norm_num) (by norm_num)
    (Or.inr (by norm_num))
  exact ⟨h.1, h.2.1, h.2.2.2⟩

/-- Counterexample to claim C7 as stated: not every gameplay update
function is registered in the FixedUpdate schedule; in particular
check_for_collisions sits in Update and appears nowhere in FixedUpdate. -/
theorem claim_C7_counterexample :
    ¬ (gamePlaySystems.all (fun s =>
      appSystems.any (fun r =>
        decide (r.1 = Schedule.FixedUpdate) && decide (r.2.1 = s))) = true) := by
  decide

/-- Claim C7 (amended): only maybe_spawn_meteor and increase_difficulty
run in the fixed-timestep FixedUpdate schedule; every other gameplay
system is registered in the per-frame Update schedule, all gated to the
InGame state. -/
theorem claim_C7_amended :
    appSystems.filter (fun r => decide (r.1 = Schedule.FixedUpdate)) =
      [(Schedule.FixedUpdate, SystemName.maybeSpawnMeteor, SysSet.GamePlaySet),
       (Schedule.FixedUpdate, SystemName.increaseDifficulty, SysSet.GamePlaySet)] ∧
    (gamePlaySystems.all (fun s =>
      appSystems.any (fun r =>
        (decide (r.1 = Schedule.Update) || decide (r.1 = Schedule.FixedUpdate)) &&
          decide (r.2.1 = s) && decide (r.2.2 = SysSet.GamePlaySet))) = true) ∧
    setRunIf SysSet.GamePlaySet = some GameState.InGame := by
  refine ⟨by decide, by decide, rfl⟩

/-- Claim C10: on every entry to the InGame state (setup is registered
OnEnter(InGame), so also on retry), the score is reset to 0, the
difficulty to INIT_DIFFICULTY (0.05), and the player is spawned with
health STARTING_HEALTH (5). -/
theorem claim_C10 (w : World) :
    (setup w).difficultyValue = INIT_DIFFICULTY ∧
    INIT_DIFFICULTY = 1 / 20 ∧
    (setup w).score = 0 ∧
    playerEntity w.nextId w ∈ (setup w).entities ∧
    (playerEntity w.nextId w).isPlayer = true ∧
    (playerEntity w.nextId w).health = some STARTING_HEALTH ∧
    STARTING_HEALTH = 5 ∧
    (Schedule.OnEnterInGame, SystemName.setupSys, SysSet.NoSet) ∈ appSystems := by
  refine ⟨rfl, by norm_num [INIT_DIFFICULTY], rfl, ?_, rfl, rfl, rfl, by decide⟩
  simp [setup]
